import Mathlib

/-!
Verification of the self-healing process-orchestration engine of the SEA
repository (source file: src/agent/app_demonstrator.py, class AppDemonstrator).

The Python code is shallowly embedded below.  External effects (subprocess
calls, process spawning, HTTP requests, the process table seen by psutil,
report file writes) are parameters collected in an `Env` record; the mutable
attributes of the AppDemonstrator object (ports, URLs, process handles, the
ad-hoc fix ledger) form the `DemoState` record that every embedded method
threads explicitly.  A GET performed by `requests.get` carries no timeout in
the source, so the HTTP world may also answer `hang`, meaning the request
blocks forever; a blocked computation is modelled by the `blocked` / `none`
results.  Loops are run on explicit fuel: `fuelOut` means the loop was still
running after the given number of iterations.
-/

namespace SEA

/-- The apostrophe character, built numerically. -/
def quoteChar : Char := Char.ofNat 39

/-- Does the second list occur as a leading segment of the first argument list?
Mirrors the character-by-character test used for substring search. -/
def listStartsWith : List Char → List Char → Bool
  | _, [] => true
  | [], _ :: _ => false
  | c :: cs, p :: ps => p == c && listStartsWith cs ps

/-- Does `pat` occur contiguously inside `s`?  This is the semantics of the
Python expression `pat in s` on strings. -/
def listHasSub (pat : List Char) : List Char → Bool
  | [] => listStartsWith [] pat
  | c :: t => listStartsWith (c :: t) pat || listHasSub pat t

/-- `hasSub s pat` is the Python test `pat in s` (contiguous substring). -/
def hasSub (s pat : String) : Bool := listHasSub pat.data s.data

/-- Python `s.lower()` restricted to the characters the embedding meets. -/
def strLower (s : String) : String := String.mk (s.data.map Char.toLower)

/-- Python `s.split("'")`: split a character list at every apostrophe. -/
def splitOnQuote : List Char → List (List Char)
  | [] => [[]]
  | c :: t =>
    let r := splitOnQuote t
    if c == quoteChar then [] :: r
    else
      match r with
      | [] => [[c]]
      | h :: t2 => (c :: h) :: t2

/-- Outcome of one `requests.get` / `requests.post` call: an HTTP status, a
network error (`requests.RequestException`) carrying its text, or `hang`, a
request that never returns (the source passes no per-request timeout). -/
inductive HttpRes where
  | status : Nat → HttpRes
  | netError : String → HttpRes
  | hang : HttpRes
deriving DecidableEq

/-- Observable steps of a health-probe loop: one GET at iteration `i`, or one
`time.sleep(1)` call. -/
inductive ProbeEvent where
  | get : Nat → ProbeEvent
  | sleep1 : ProbeEvent
deriving DecidableEq

/-- Prepend a GET event to a probe-loop result. -/
def probeCons (i : Nat) (p : Option (Bool × Nat) × List ProbeEvent) :
    Option (Bool × Nat) × List ProbeEvent :=
  (p.1, ProbeEvent.get i :: p.2)

/-- Prepend a GET event followed by a one-second sleep to a probe-loop result. -/
def probeConsSleep (i : Nat) (p : Option (Bool × Nat) × List ProbeEvent) :
    Option (Bool × Nat) × List ProbeEvent :=
  (p.1, ProbeEvent.get i :: ProbeEvent.sleep1 :: p.2)

/-- The polling loop shared by `_start_backend` and `_start_frontend`:
`for _ in range(n): try: r = requests.get(url); if r.status_code == 200:
return ... except RequestException: time.sleep(1)`.  First component of the
result: `some (true, k)` means the loop returned success after `k` GETs,
`some (false, k)` means the iteration budget was exhausted after `k` GETs,
`none` means a GET hung forever.  Second component: the event trace. -/
def probeLoop (http : Nat → String → String → HttpRes) (url : String) :
    Nat → Nat → Option (Bool × Nat) × List ProbeEvent
  | 0, i => (some (false, i), [])
  | n + 1, i =>
    match http i "GET" url with
    | HttpRes.status c =>
      if c = 200 then (some (true, i + 1), [ProbeEvent.get i])
      else probeCons i (probeLoop http url n (i + 1))
    | HttpRes.netError _ => probeConsSleep i (probeLoop http url n (i + 1))
    | HttpRes.hang => (none, [ProbeEvent.get i])

/-- The external world visited by AppDemonstrator: subprocess invocations
(`runCmd`, failing with the stringified `CalledProcessError`), manifest-file
existence, `subprocess.Popen` outcomes, the HTTP world (indexed by an
iteration counter, the method and the URL), the platform, whether
`psutil.Process(pid)` succeeds for each launched server, and the outcome of
writing the demo report file. -/
structure Env where
  runCmd : List String → Except String Unit
  backendReqTxt : Bool
  frontendPkgJson : Bool
  spawnBackend : Except String Unit
  spawnFrontend : Except String Unit
  http : Nat → String → String → HttpRes
  isWin : Bool
  psBackendLookupOk : Bool
  psFrontendLookupOk : Bool
  writeReport : Except String Unit

/-- The `self._fix_attempts` dictionary: one list of applied-fix descriptions
per component. -/
structure FixLedger where
  backend : List String := []
  frontend : List String := []
  dependencies : List String := []
deriving DecidableEq

/-- The mutable attributes of the AppDemonstrator instance.  `fixAttempts` is
an `Option` because the source creates the `_fix_attempts` attribute lazily
(`hasattr` check inside each fix method). -/
structure DemoState where
  backendPort : Nat := 5000
  frontendPort : Nat := 3000
  backendUrl : String := "http://localhost:5000"
  frontendUrl : String := "http://localhost:3000"
  backendLaunched : Bool := false
  frontendLaunched : Bool := false
  envPORT : Option String := none
  fixAttempts : Option FixLedger := none
deriving DecidableEq

/-- The state built by `__init__`. -/
def initState : DemoState := {}

/-- The `if not hasattr(self, '_fix_attempts'): self._fix_attempts = {...}`
preamble shared by the three fix methods. -/
def ensureLedger (st : DemoState) : DemoState :=
  match st.fixAttempts with
  | some _ => st
  | none => { st with fixAttempts := some {} }

/-- `self._fix_attempts[component].append(desc)`. -/
def pushFix (st : DemoState) (comp desc : String) : DemoState :=
  let L := st.fixAttempts.getD {}
  let L :=
    if comp = "backend" then { L with backend := L.backend ++ [desc] }
    else if comp = "frontend" then { L with frontend := L.frontend ++ [desc] }
    else { L with dependencies := L.dependencies ++ [desc] }
  { st with fixAttempts := some L }

/-- Stand-in for `sys.executable`. -/
def pythonExe : String := "python"

/-- `_fix_backend_error`: substring dispatch over the raw error string, with
every exception of the `try` body caught and rendered as
`"Backend fix failed: ..."`. -/
def fixBackendError (env : Env) (error : String) (st : DemoState) :
    (Bool × String) × DemoState :=
  let st := ensureLedger st
  if hasSub error "ModuleNotFoundError" then
    match (splitOnQuote error.data)[1]? with
    | none => ((false, "Backend fix failed: list index out of range"), st)
    | some m =>
      let name := String.mk m
      match env.runCmd [pythonExe, "-m", "pip", "install", name] with
      | Except.error e => ((false, "Backend fix failed: " ++ e), st)
      | Except.ok _ =>
        let msg := "Installed missing module: " ++ name
        ((true, msg), pushFix st "backend" msg)
  else if hasSub error "Address already in use" then
    let p := st.backendPort + 1
    let st := { st with backendPort := p, backendUrl := "http://localhost:" ++ toString p }
    let msg := "Changed backend port to " ++ toString p
    ((true, msg), pushFix st "backend" msg)
  else if hasSub error ("No module named " ++ String.mk [quoteChar] ++ "flask" ++ String.mk [quoteChar]) then
    match env.runCmd [pythonExe, "-m", "pip", "install", "flask"] with
    | Except.error e => ((false, "Backend fix failed: " ++ e), st)
    | Except.ok _ =>
      let msg := "Installed Flask"
      ((true, msg), pushFix st "backend" msg)
  else if hasSub error "SQLAlchemy" then
    match env.runCmd ["pip", "install", "sqlalchemy"] with
    | Except.error e => ((false, "Backend fix failed: " ++ e), st)
    | Except.ok _ =>
      match env.runCmd ["pip", "install", "psycopg2-binary"] with
      | Except.error e => ((false, "Backend fix failed: " ++ e), st)
      | Except.ok _ =>
        match env.runCmd ["pip", "install", "flask-sqlalchemy"] with
        | Except.error e => ((false, "Backend fix failed: " ++ e), st)
        | Except.ok _ =>
          let msg := "Installed database dependencies"
          ((true, msg), pushFix st "backend" msg)
  else ((false, "Unable to automatically fix this backend error"), st)

/-- `_fix_frontend_error`. -/
def fixFrontendError (env : Env) (error : String) (st : DemoState) :
    (Bool × String) × DemoState :=
  let st := ensureLedger st
  if hasSub error "ENOENT" && hasSub error "package.json" then
    let msg := "Created basic package.json"
    ((true, msg), pushFix st "frontend" msg)
  else if hasSub error "react-scripts" then
    match env.runCmd ["npm", "install", "react-scripts", "--save-dev"] with
    | Except.error e => ((false, "Frontend fix failed: " ++ e), st)
    | Except.ok _ =>
      let msg := "Installed react-scripts"
      ((true, msg), pushFix st "frontend" msg)
  else if hasSub error "EADDRINUSE" then
    let p := st.frontendPort + 1
    let st := { st with frontendPort := p, envPORT := some (toString p),
                        frontendUrl := "http://localhost:" ++ toString p }
    let msg := "Changed frontend port to " ++ toString p
    ((true, msg), pushFix st "frontend" msg)
  else ((false, "Unable to automatically fix this frontend error"), st)

/-- `_fix_dependency_error`. -/
def fixDependencyError (env : Env) (error : String) (st : DemoState) :
    (Bool × String) × DemoState :=
  let st := ensureLedger st
  if hasSub (strLower error) "npm" then
    let cmd := if env.isWin then ["npm", "install", "-g", "npm"]
               else ["sudo", "npm", "install", "-g", "npm"]
    match env.runCmd cmd with
    | Except.error e => ((false, "Dependency fix failed: " ++ e), st)
    | Except.ok _ =>
      let msg := "Updated npm installation"
      ((true, msg), pushFix st "dependencies" msg)
  else if hasSub (strLower error) "python" || hasSub (strLower error) "pip" then
    match env.runCmd [pythonExe, "-m", "pip", "install", "--upgrade", "pip"] with
    | Except.error e => ((false, "Dependency fix failed: " ++ e), st)
    | Except.ok _ =>
      let msg := "Updated pip installation"
      ((true, msg), pushFix st "dependencies" msg)
  else ((false, "Unable to automatically fix this dependency error"), st)

/-- `_analyze_and_fix_error`: dispatch on the component name. -/
def analyzeAndFixError (env : Env) (component error : String) (st : DemoState) :
    (Bool × String) × DemoState :=
  if component = "backend" then fixBackendError env error st
  else if component = "frontend" then fixFrontendError env error st
  else if component = "dependencies" then fixDependencyError env error st
  else ((false, "Unknown component: " ++ component), st)

/-- Observable steps of one `_retry_with_fixes` session: skipping an
already-seen error (the branch that prints "This error was seen before"),
one classifier/remediator invocation (`_analyze_and_fix_error`) with its
outcome, and one re-invocation of the wrapped operation. -/
inductive RetryEvent where
  | duplicateSkip : String → RetryEvent
  | fixTried : String → Bool → String → RetryEvent
  | opCall : Bool → String → RetryEvent
deriving DecidableEq

/-- Result of a `_retry_with_fixes` session: a normal return value together
with the final object state, a session blocked inside a hanging HTTP GET, or
fuel exhaustion (the loop was still running after the allotted iterations). -/
inductive RetryRes (σ : Type) where
  | done : Bool × String → σ → RetryRes σ
  | blocked : RetryRes σ
  | fuelOut : RetryRes σ
deriving DecidableEq

/-- The failure string returned after the `while` loop exits:
`f"Failed to fix {component} after {max_attempts} attempts. Last error: {last_error}"`. -/
def retryFailMsg (maxAttempts : Nat) (component lastError : String) : String :=
  "Failed to fix " ++ component ++ " after " ++ toString maxAttempts ++
    " attempts. Last error: " ++ lastError

/-- Prepend a retry event to a retry result. -/
def evCons {σ : Type} (e : RetryEvent) (p : RetryRes σ × List RetryEvent) :
    RetryRes σ × List RetryEvent :=
  (p.1, e :: p.2)

/-- `_retry_with_fixes(operation, error_msg, component, func, max_attempts)`.
`fix` is the classifier/remediator (`_analyze_and_fix_error` applied to the
component), `op` is `func`; both thread the object state `σ`.  The remaining
arguments are the loop variables: fuel, `attempt`, `last_error`,
`errors_seen` (as a list), and the object state. -/
def retryWithFixes {σ : Type} (maxAttempts : Nat) (component : String)
    (fix : String → σ → (Bool × String) × σ)
    (op : σ → Option ((Bool × String) × σ)) :
    Nat → Nat → String → List String → σ → RetryRes σ × List RetryEvent
  | 0, _, _, _, _ => (RetryRes.fuelOut, [])
  | fuel + 1, attempt, lastError, errorsSeen, s =>
    if attempt > maxAttempts then
      (RetryRes.done (false, retryFailMsg maxAttempts component lastError) s, [])
    else if lastError ∈ errorsSeen then
      evCons (RetryEvent.duplicateSkip lastError)
        (retryWithFixes maxAttempts component fix op fuel (attempt + 1) lastError errorsSeen s)
    else
      let seen := lastError :: errorsSeen
      let fr := fix lastError s
      let fixed := fr.1.1
      let fixMsg := fr.1.2
      let s1 := fr.2
      if fixed then
        match op s1 with
        | none => (RetryRes.blocked, [RetryEvent.fixTried lastError true fixMsg])
        | some ((ok, newMsg), s2) =>
          if ok then
            (RetryRes.done (true, newMsg) s2,
              [RetryEvent.fixTried lastError true fixMsg, RetryEvent.opCall true newMsg])
          else
            evCons (RetryEvent.fixTried lastError true fixMsg)
              (evCons (RetryEvent.opCall false newMsg)
                (retryWithFixes maxAttempts component fix op fuel attempt newMsg seen s2))
      else
        evCons (RetryEvent.fixTried lastError false fixMsg)
          (retryWithFixes maxAttempts component fix op fuel (attempt + 1) lastError seen s1)

/-- `_install_dependencies`: pip-install the backend requirements when
`requirements.txt` exists, npm-install when `package.json` exists; a
`CalledProcessError` is caught and rendered. -/
def installDependencies (env : Env) (st : DemoState) : (Bool × String) × DemoState :=
  if env.backendReqTxt then
    match env.runCmd [pythonExe, "-m", "pip", "install", "-r", "requirements.txt"] with
    | Except.error e => ((false, "Failed to install dependencies: " ++ e), st)
    | Except.ok _ =>
      if env.frontendPkgJson then
        match env.runCmd ["npm", "install"] with
        | Except.error e => ((false, "Failed to install dependencies: " ++ e), st)
        | Except.ok _ => ((true, "Dependencies installed successfully"), st)
      else ((true, "Dependencies installed successfully"), st)
  else
    if env.frontendPkgJson then
      match env.runCmd ["npm", "install"] with
      | Except.error e => ((false, "Failed to install dependencies: " ++ e), st)
      | Except.ok _ => ((true, "Dependencies installed successfully"), st)
    else ((true, "Dependencies installed successfully"), st)

/-- `_start_backend`: spawn `flask run`, record the process handle, then poll
`{backend_url}/health` up to 30 times.  `none` models a GET that hangs. -/
def startBackend (env : Env) (st : DemoState) : Option ((Bool × String) × DemoState) :=
  match env.spawnBackend with
  | Except.error e => some ((false, "Failed to start backend: " ++ e), st)
  | Except.ok _ =>
    let st := { st with backendLaunched := true }
    match (probeLoop env.http (st.backendUrl ++ "/health") 30 0).1 with
    | none => none
    | some (true, _) => some ((true, "Backend started successfully"), st)
    | some (false, _) => some ((false, "Backend failed to start within timeout"), st)

/-- `_start_frontend`: spawn `npm start`, record the process handle, then
poll `frontend_url` up to 60 times. -/
def startFrontend (env : Env) (st : DemoState) : Option ((Bool × String) × DemoState) :=
  match env.spawnFrontend with
  | Except.error e => some ((false, "Failed to start frontend: " ++ e), st)
  | Except.ok _ =>
    let st := { st with frontendLaunched := true }
    match (probeLoop env.http st.frontendUrl 60 0).1 with
    | none => none
    | some (true, _) => some ((true, "Frontend started successfully"), st)
    | some (false, _) => some ((false, "Frontend failed to start within timeout"), st)

/-- One row of the `_verify_api_endpoints` result list.  The source stores a
dictionary holding either a `status_code` key (a response arrived) or an
`error` key (the request raised). -/
structure EndpointResult where
  endpoint : String
  method : String
  status : String
  statusCode : Option String
  error : Option String
deriving DecidableEq

/-- The fixed endpoint table of `_verify_api_endpoints`. -/
def apiEndpoints : List (String × String) :=
  [("/api/health", "GET"), ("/api/auth/register", "POST"),
   ("/api/auth/login", "POST"), ("/api/users/profile", "GET")]

/-- One smoke-test request: `Success` exactly when a response arrives with
status strictly below 500, `Failed` on a 5xx status or a network exception;
`none` when the request hangs. -/
def checkEndpoint (env : Env) (st : DemoState) (i : Nat) (p : String × String) :
    Option EndpointResult :=
  match env.http i p.2 (st.backendUrl ++ p.1) with
  | HttpRes.status c =>
    some ⟨p.1, p.2, if c < 500 then "Success" else "Failed", some (toString c), none⟩
  | HttpRes.netError e => some ⟨p.1, p.2, "Failed", none, some e⟩
  | HttpRes.hang => none

/-- The sequential loop of `_verify_api_endpoints`. -/
def verifyGo (env : Env) (st : DemoState) : Nat → List (String × String) →
    Option (List EndpointResult)
  | _, [] => some []
  | i, p :: ps =>
    match checkEndpoint env st i p with
    | none => none
    | some r =>
      match verifyGo env st (i + 1) ps with
      | none => none
      | some rs => some (r :: rs)

/-- `_verify_api_endpoints`. -/
def verifyApiEndpoints (env : Env) (st : DemoState) : Option (List EndpointResult) :=
  verifyGo env st 0 apiEndpoints

/-- The lines of the markdown report built by `_generate_demo_report`. -/
def reportLines (st : DemoState) (api : List EndpointResult) : List String :=
  ["# Web Application Demonstration Report\n",
   "## API Endpoint Status\n",
   "| Endpoint | Method | Status | Status Code |",
   "|----------|---------|---------|-------------|"] ++
  api.map (fun r =>
    "| " ++ r.endpoint ++ " | " ++ r.method ++ " | " ++ r.status ++ " | " ++
      r.statusCode.getD "N/A" ++ " |") ++
  ["\n## Application URLs",
   "- Frontend: " ++ st.frontendUrl,
   "- Backend API: " ++ st.backendUrl,
   "\n## Next Steps",
   "1. Open the frontend URL in your browser",
   "2. Try registering a new user",
   "3. Test the login functionality",
   "4. Explore the application features"]

/-- `_generate_demo_report`. -/
def generateDemoReport (st : DemoState) (api : List EndpointResult) : String :=
  String.intercalate "\n" (reportLines st api)

/-- What `_cleanup` achieved: whether each launched process tree received
terminate signals, and whether an exception was caught by the surrounding
`except` clause. -/
structure CleanupResult where
  backendTerminated : Bool
  frontendTerminated : Bool
  raised : Bool
deriving DecidableEq

/-- `_cleanup`: a single `try` block first tears down the backend tree, then
the frontend tree; `psutil.Process(pid)` raises `NoSuchProcess` when the
process already exited, and the first exception aborts the remainder of the
block (it is caught and only logged). -/
def cleanupProcesses (env : Env) (st : DemoState) : CleanupResult :=
  let backendStep : Except Unit Bool :=
    if st.backendLaunched then
      if env.psBackendLookupOk then Except.ok true else Except.error ()
    else Except.ok false
  match backendStep with
  | Except.error _ => ⟨false, false, true⟩
  | Except.ok b =>
    if st.frontendLaunched then
      if env.psFrontendLookupOk then ⟨b, true, false⟩ else ⟨b, false, true⟩
    else ⟨b, false, false⟩

/-- One stage of `demonstrate`: call the operation once and, only if it
fails, hand the error to `_retry_with_fixes` with the default budget of 5. -/
def runStage (env : Env) (fuel : Nat) (component : String)
    (op : DemoState → Option ((Bool × String) × DemoState)) (st : DemoState) :
    RetryRes DemoState :=
  match op st with
  | none => RetryRes.blocked
  | some ((true, m), st1) => RetryRes.done (true, m) st1
  | some ((false, m), st1) =>
    (retryWithFixes 5 component (analyzeAndFixError env component) op fuel 1 m [] st1).1

/-- Everything `demonstrate` produced on a normal return: the returned
triple, the stages that were attempted (by their banner strings), the final
object state, and what the `finally` cleanup achieved. -/
structure DemoRun where
  result : Bool × String × Option String
  stages : List String
  finalState : DemoState
  cleanup : CleanupResult
deriving DecidableEq

/-- Result of `demonstrate`: a normal return (cleanup ran — it sits in a
`finally` block), or a run blocked forever inside a hanging GET, or fuel
exhaustion of a retry loop; in the latter two cases control never reaches
`finally`. -/
inductive DemoOut where
  | finished : DemoRun → DemoOut
  | blocked : DemoOut
  | fuelOut : DemoOut
deriving DecidableEq

/-- `demonstrate`: install dependencies, start backend, start frontend —
each wrapped in `_retry_with_fixes` on first failure, each failure returning
`(False, message, None)` — then verify endpoints, write the report and
return it.  `_cleanup` runs on every normal exit path (`finally`). -/
def demonstrate (env : Env) (fuel : Nat) : DemoOut :=
  let s1 := ["[1/4] Installing dependencies..."]
  match runStage env fuel "dependencies" (fun s => some (installDependencies env s)) initState with
  | RetryRes.blocked => DemoOut.blocked
  | RetryRes.fuelOut => DemoOut.fuelOut
  | RetryRes.done (false, m) st => DemoOut.finished ⟨(false, m, none), s1, st, cleanupProcesses env st⟩
  | RetryRes.done (true, _) st =>
    let s2 := s1 ++ ["[2/4] Starting backend server..."]
    match runStage env fuel "backend" (startBackend env) st with
    | RetryRes.blocked => DemoOut.blocked
    | RetryRes.fuelOut => DemoOut.fuelOut
    | RetryRes.done (false, m) st2 =>
      DemoOut.finished ⟨(false, m, none), s2, st2, cleanupProcesses env st2⟩
    | RetryRes.done (true, _) st2 =>
      let s3 := s2 ++ ["[3/4] Starting frontend server..."]
      match runStage env fuel "frontend" (startFrontend env) st2 with
      | RetryRes.blocked => DemoOut.blocked
      | RetryRes.fuelOut => DemoOut.fuelOut
      | RetryRes.done (false, m) st3 =>
        DemoOut.finished ⟨(false, m, none), s3, st3, cleanupProcesses env st3⟩
      | RetryRes.done (true, _) st3 =>
        let s4 := s3 ++ ["[4/4] Verifying API endpoints..."]
        match verifyApiEndpoints env st3 with
        | none => DemoOut.blocked
        | some api =>
          let report := generateDemoReport st3 api
          match env.writeReport with
          | Except.error e =>
            DemoOut.finished ⟨(false, "Demonstration failed: " ++ e, none), s4, st3,
              cleanupProcesses env st3⟩
          | Except.ok _ =>
            DemoOut.finished ⟨(true, "Demonstration completed successfully", some report), s4, st3,
              cleanupProcesses env st3⟩

/-- The symbolic error categories of the specification (section 4.3):
`MissingDependency(name)` carries the first quoted token of the raw error
(absent when the error text holds no quote), `MissingToolchain(family)`,
`PortInUse`, `MissingManifest`, `MissingBuildTool`,
`PackageManagerBroken(manager)`, `Unclassified`, plus a tag for a component
name outside the three known ones. -/
inductive ErrorCategory where
  | missingDependency : Option String → ErrorCategory
  | portInUse : ErrorCategory
  | missingToolchain : String → ErrorCategory
  | missingManifest : ErrorCategory
  | missingBuildTool : ErrorCategory
  | pkgManagerBroken : String → ErrorCategory
  | unclassified : ErrorCategory
  | unknownComponent : ErrorCategory
deriving DecidableEq

/-- Modelled from the spec (section 4.3): `classify(raw_error, component)`,
pure first-match substring dispatch against the ordered per-component
signature table; no match yields `Unclassified`.  For Backend the order is
missing-module, address-in-use, missing-flask, ORM-library; for Frontend it
is missing-manifest, missing-build-tool, address-in-use; for Dependencies the
package-manager signatures are matched case-insensitively. -/
def specClassify (component error : String) : ErrorCategory :=
  if component = "backend" then
    if hasSub error "ModuleNotFoundError" then
      ErrorCategory.missingDependency ((splitOnQuote error.data)[1]?.map String.mk)
    else if hasSub error "Address already in use" then ErrorCategory.portInUse
    else if hasSub error ("No module named " ++ String.mk [quoteChar] ++ "flask" ++ String.mk [quoteChar]) then
      ErrorCategory.missingToolchain "flask"
    else if hasSub error "SQLAlchemy" then ErrorCategory.missingToolchain "sqlalchemy"
    else ErrorCategory.unclassified
  else if component = "frontend" then
    if hasSub error "ENOENT" && hasSub error "package.json" then ErrorCategory.missingManifest
    else if hasSub error "react-scripts" then ErrorCategory.missingBuildTool
    else if hasSub error "EADDRINUSE" then ErrorCategory.portInUse
    else ErrorCategory.unclassified
  else if component = "dependencies" then
    if hasSub (strLower error) "npm" then ErrorCategory.pkgManagerBroken "npm"
    else if hasSub (strLower error) "python" || hasSub (strLower error) "pip" then
      ErrorCategory.pkgManagerBroken "pip"
    else ErrorCategory.unclassified
  else ErrorCategory.unknownComponent

/-- The `"Unable to automatically fix this ... error"` string of each
component (the source says "dependency", singular, for the third one). -/
def unableMsg (component : String) : String :=
  if component = "dependencies" then "Unable to automatically fix this dependency error"
  else "Unable to automatically fix this " ++ component ++ " error"

/-- The `"... fix failed: "` message head under which each fix method reports
an exception thrown by its own remediation action. -/
def fixFailHead (component : String) : String :=
  if component = "backend" then "Backend fix failed: "
  else if component = "frontend" then "Frontend fix failed: "
  else "Dependency fix failed: "

/-- Modelled from the spec (section 4.4): the single remediation action
attached to each error category, with a remediation action that itself fails
caught locally and reported as a not-applicable outcome. -/
def specAction (env : Env) (component : String) (cat : ErrorCategory) (st : DemoState) :
    (Bool × String) × DemoState :=
  let st1 := ensureLedger st
  match cat with
  | ErrorCategory.missingDependency none =>
    ((false, "Backend fix failed: list index out of range"), st1)
  | ErrorCategory.missingDependency (some name) =>
    match env.runCmd [pythonExe, "-m", "pip", "install", name] with
    | Except.error e => ((false, "Backend fix failed: " ++ e), st1)
    | Except.ok _ =>
      let msg := "Installed missing module: " ++ name
      ((true, msg), pushFix st1 "backend" msg)
  | ErrorCategory.portInUse =>
    if component = "backend" then
      let p := st1.backendPort + 1
      let st2 := { st1 with backendPort := p, backendUrl := "http://localhost:" ++ toString p }
      let msg := "Changed backend port to " ++ toString p
      ((true, msg), pushFix st2 "backend" msg)
    else
      let p := st1.frontendPort + 1
      let st2 := { st1 with frontendPort := p, envPORT := some (toString p),
                            frontendUrl := "http://localhost:" ++ toString p }
      let msg := "Changed frontend port to " ++ toString p
      ((true, msg), pushFix st2 "frontend" msg)
  | ErrorCategory.missingToolchain fam =>
    if fam = "flask" then
      match env.runCmd [pythonExe, "-m", "pip", "install", "flask"] with
      | Except.error e => ((false, "Backend fix failed: " ++ e), st1)
      | Except.ok _ => ((true, "Installed Flask"), pushFix st1 "backend" "Installed Flask")
    else
      match env.runCmd ["pip", "install", "sqlalchemy"] with
      | Except.error e => ((false, "Backend fix failed: " ++ e), st1)
      | Except.ok _ =>
        match env.runCmd ["pip", "install", "psycopg2-binary"] with
        | Except.error e => ((false, "Backend fix failed: " ++ e), st1)
        | Except.ok _ =>
          match env.runCmd ["pip", "install", "flask-sqlalchemy"] with
          | Except.error e => ((false, "Backend fix failed: " ++ e), st1)
          | Except.ok _ =>
            ((true, "Installed database dependencies"),
              pushFix st1 "backend" "Installed database dependencies")
  | ErrorCategory.missingManifest =>
    ((true, "Created basic package.json"), pushFix st1 "frontend" "Created basic package.json")
  | ErrorCategory.missingBuildTool =>
    match env.runCmd ["npm", "install", "react-scripts", "--save-dev"] with
    | Except.error e => ((false, "Frontend fix failed: " ++ e), st1)
    | Except.ok _ =>
      ((true, "Installed react-scripts"), pushFix st1 "frontend" "Installed react-scripts")
  | ErrorCategory.pkgManagerBroken "npm" =>
    let cmd := if env.isWin then ["npm", "install", "-g", "npm"]
               else ["sudo", "npm", "install", "-g", "npm"]
    match env.runCmd cmd with
    | Except.error e => ((false, "Dependency fix failed: " ++ e), st1)
    | Except.ok _ =>
      ((true, "Updated npm installation"), pushFix st1 "dependencies" "Updated npm installation")
  | ErrorCategory.pkgManagerBroken _ =>
    match env.runCmd [pythonExe, "-m", "pip", "install", "--upgrade", "pip"] with
    | Except.error e => ((false, "Dependency fix failed: " ++ e), st1)
    | Except.ok _ =>
      ((true, "Updated pip installation"), pushFix st1 "dependencies" "Updated pip installation")
  | ErrorCategory.unclassified => ((false, unableMsg component), st1)
  | ErrorCategory.unknownComponent => ((false, "Unknown component: " ++ component), st)

/-- The error categories whose remediation action runs a subprocess and can
therefore itself fail. -/
def fallibleCategory : ErrorCategory → Bool
  | ErrorCategory.missingDependency (some _) => true
  | ErrorCategory.missingToolchain _ => true
  | ErrorCategory.missingBuildTool => true
  | ErrorCategory.pkgManagerBroken _ => true
  | _ => false

/-- An HTTP answer that neither succeeds the liveness test nor hangs. -/
def notReady (r : HttpRes) : Prop := r ≠ HttpRes.status 200 ∧ r ≠ HttpRes.hang

/-- Number of sleep events in a probe trace. -/
def sleepCount : List ProbeEvent → Nat
  | [] => 0
  | ProbeEvent.sleep1 :: t => sleepCount t + 1
  | ProbeEvent.get _ :: t => sleepCount t

/-- Number of GET events in a probe trace whose iteration index got a
network-error answer from the world `http` at URL `url`. -/
def netErrGetCount (http : Nat → String → String → HttpRes) (url : String) :
    List ProbeEvent → Nat
  | [] => 0
  | ProbeEvent.sleep1 :: t => netErrGetCount http url t
  | ProbeEvent.get i :: t =>
    match http i "GET" url with
    | HttpRes.netError _ => netErrGetCount http url t + 1
    | _ => netErrGetCount http url t

/-- A benign world: every subprocess call succeeds, no manifest files are
present, both spawns succeed, every request answers 200, POSIX platform,
both psutil lookups succeed, the report write succeeds. -/
def baseEnv : Env where
  runCmd := fun _ => Except.ok ()
  backendReqTxt := false
  frontendPkgJson := false
  spawnBackend := Except.ok ()
  spawnFrontend := Except.ok ()
  http := fun _ _ _ => HttpRes.status 200
  isWin := false
  psBackendLookupOk := true
  psFrontendLookupOk := true
  writeReport := Except.ok ()

/-- World in which the backend process has already exited when cleanup runs:
`psutil.Process(backend.pid)` raises `NoSuchProcess`. -/
def envBackendGone : Env := { baseEnv with psBackendLookupOk := false }

/-- World in which every subprocess call fails with the same error text. -/
def envCmdsFail : Env := { baseEnv with runCmd := fun _ => Except.error "boom" }

/-- The raw error string `No module named 'flask'`. -/
def flaskErrStr : String :=
  "No module named " ++ String.mk [quoteChar] ++ "flask" ++ String.mk [quoteChar]

/-- World in which every request fails with a connection error. -/
def envRefused : Env := { baseEnv with http := fun _ _ _ => HttpRes.netError "connection refused" }

/-- World in which the backend liveness endpoint answers 200 but every other
URL refuses connections. -/
def envFrontRefused : Env :=
  { baseEnv with http := fun _ _ u =>
      if u = "http://localhost:5000/health" then HttpRes.status 200
      else HttpRes.netError "connection refused" }

/-- World in which only port 3001 answers 200 and everything else refuses. -/
def env3001 : Env :=
  { baseEnv with http := fun _ _ u =>
      if u = "http://localhost:3001" then HttpRes.status 200
      else HttpRes.netError "refused" }

/-- World that always answers 404: reachable but never live. -/
def http404 : Nat → String → String → HttpRes := fun _ _ _ => HttpRes.status 404

/-- World in which every request hangs forever (the source sets no
per-request timeout, so nothing bounds such a GET). -/
def httpHangs : Nat → String → String → HttpRes := fun _ _ _ => HttpRes.hang

/-- World used for the smoke-test example: the four endpoint slots answer
200, 400, a network error, and 503 respectively. -/
def envSmoke : Env :=
  { baseEnv with http := fun i _ _ =>
      if i = 0 then HttpRes.status 200
      else if i = 1 then HttpRes.status 400
      else if i = 2 then HttpRes.netError "boom"
      else HttpRes.status 503 }

/-- The object state after the frontend port-conflict fix has run on the
initial state: port 3001, PORT environment override, updated URL, one
frontend ledger entry. -/
def stAfterFrontFix : DemoState :=
  { initState with
    frontendPort := 3001
    envPORT := some "3001"
    frontendUrl := "http://localhost:3001"
    fixAttempts := some { frontend := ["Changed frontend port to 3001"] } }

/-- The object state after the subsequent successful frontend start. -/
def stFrontStarted : DemoState := { stAfterFrontFix with frontendLaunched := true }

/-- The final object state of a run whose backend stage failed permanently:
the backend server process was launched (and stays alive), the frontend one
never was; the fix ledger got initialized by the first fix attempt. -/
def stBackendOnly : DemoState :=
  { initState with backendLaunched := true, fixAttempts := some ({} : FixLedger) }

/-- The final object state of a run whose frontend stage failed permanently:
both server processes were launched. -/
def stBothOnly : DemoState :=
  { initState with backendLaunched := true, frontendLaunched := true,
                   fixAttempts := some ({} : FixLedger) }

/-- Project the run out of a `demonstrate` outcome. -/
def demoRunOf : DemoOut → Option DemoRun
  | DemoOut.finished r => some r
  | _ => none

/-- A raw error string of length `n`, pairwise distinct by length. -/
def freshErr (n : Nat) : String := String.mk (List.replicate n 'x')

/-- A remediator that reports every error as fixed (the observable behavior
of `_fix_backend_error` on any address-in-use error: the port bump always
succeeds), threading a call counter as state. -/
def fixAlways : String → Nat → (Bool × String) × Nat := fun _ k => ((true, "fix applied"), k)

/-- An operation that fails on every call, each time with an error string
never produced before (length `k + 2` on call number `k`). -/
def opFreshFail : Nat → Option ((Bool × String) × Nat) :=
  fun k => some ((false, freshErr (k + 2)), k + 1)

theorem probe_timeout (http : Nat → String → String → HttpRes) (u : String) :
    ∀ n i, (∀ j, j < n → notReady (http (i + j) "GET" u)) →
      (probeLoop http u n i).1 = some (false, i + n) := by
  intro n
  induction n with
  | zero => intro i _; simp [probeLoop]
  | succ n ih =>
    intro i h
    have h0 := h 0 (Nat.succ_pos n)
    rw [Nat.add_zero] at h0
    have hrec := ih (i + 1) (fun j hj => by
      have hx := h (j + 1) (by omega)
      rwa [show i + (j + 1) = i + 1 + j by omega] at hx)
    have harith : i + 1 + n = i + (n + 1) := by omega
    cases hx : http i "GET" u with
    | status c =>
      rw [hx] at h0
      have hc : ¬ c = 200 := fun hc => h0.1 (by rw [hc])
      simp only [probeLoop, hx, if_neg hc, probeCons]
      rw [hrec, harith]
    | netError m =>
      simp only [probeLoop, hx, probeConsSleep]
      rw [hrec, harith]
    | hang => rw [hx] at h0; exact absurd rfl h0.2

theorem probe_success (http : Nat → String → String → HttpRes) (u : String) :
    ∀ n i k, k < n → (∀ j, j < k → notReady (http (i + j) "GET" u)) →
      http (i + k) "GET" u = HttpRes.status 200 →
      (probeLoop http u n i).1 = some (true, i + k + 1) := by
  intro n
  induction n with
  | zero => intro i k hk; exact absurd hk (Nat.not_lt_zero k)
  | succ n ih =>
    intro i k hk hpre h200
    cases k with
    | zero =>
      rw [Nat.add_zero] at h200
      simp [probeLoop, h200]
    | succ k =>
      have h0 := hpre 0 (Nat.succ_pos k)
      rw [Nat.add_zero] at h0
      have hrec := ih (i + 1) k (by omega)
        (fun j hj => by
          have hx := hpre (j + 1) (by omega)
          rwa [show i + (j + 1) = i + 1 + j by omega] at hx)
        (by rwa [show i + (k + 1) = i + 1 + k by omega] at h200)
      have harith : i + 1 + k + 1 = i + (k + 1) + 1 := by omega
      cases hx : http i "GET" u with
      | status c =>
        rw [hx] at h0
        have hc : ¬ c = 200 := fun hc => h0.1 (by rw [hc])
        simp only [probeLoop, hx, if_neg hc, probeCons]
        rw [hrec, harith]
      | netError m =>
        simp only [probeLoop, hx, probeConsSleep]
        rw [hrec, harith]
      | hang => rw [hx] at h0; exact absurd rfl h0.2

/-- Claim C6: the health-probe loop returns success immediately upon the
first GET answering status 200 (after exactly `k + 1` GETs when the first
200 arrives at iteration `k`), and when the target never answers 200 it
returns the timeout failure only after the fixed iteration cap — 30
iterations in `_start_backend`, 60 in `_start_frontend`. -/
theorem probe_immediate_success_and_iteration_caps :
    (∀ (http : Nat → String → String → HttpRes) (u : String) (n k : Nat), k < n →
        (∀ j, j < k → notReady (http j "GET" u)) → http k "GET" u = HttpRes.status 200 →
        (probeLoop http u n 0).1 = some (true, k + 1)) ∧
    (∀ (http : Nat → String → String → HttpRes) (u : String) (n : Nat),
        (∀ j, j < n → notReady (http j "GET" u)) →
        (probeLoop http u n 0).1 = some (false, n)) ∧
    (∀ (env : Env) (st : DemoState), env.spawnBackend = Except.ok () →
        (∀ j, j < 30 → notReady (env.http j "GET" (st.backendUrl ++ "/health"))) →
        startBackend env st =
          some ((false, "Backend failed to start within timeout"),
            { st with backendLaunched := true })) ∧
    (∀ (env : Env) (st : DemoState), env.spawnFrontend = Except.ok () →
        (∀ j, j < 60 → notReady (env.http j "GET" st.frontendUrl)) →
        startFrontend env st =
          some ((false, "Frontend failed to start within timeout"),
            { st with frontendLaunched := true })) ∧
    (∀ (env : Env) (st : DemoState) (k : Nat), env.spawnBackend = Except.ok () → k < 30 →
        (∀ j, j < k → notReady (env.http j "GET" (st.backendUrl ++ "/health"))) →
        env.http k "GET" (st.backendUrl ++ "/health") = HttpRes.status 200 →
        startBackend env st =
          some ((true, "Backend started successfully"), { st with backendLaunched := true })) := by
  have hsucc : ∀ (http : Nat → String → String → HttpRes) (u : String) (n k : Nat), k < n →
      (∀ j, j < k → notReady (http j "GET" u)) → http k "GET" u = HttpRes.status 200 →
      (probeLoop http u n 0).1 = some (true, k + 1) := by
    intro http u n k hk hpre h200
    have := probe_success http u n 0 k hk
      (fun j hj => by simpa using hpre j hj) (by simpa using h200)
    simpa using this
  have htmo : ∀ (http : Nat → String → String → HttpRes) (u : String) (n : Nat),
      (∀ j, j < n → notReady (http j "GET" u)) →
      (probeLoop http u n 0).1 = some (false, n) := by
    intro http u n h
    have := probe_timeout http u n 0 (fun j hj => by simpa using h j hj)
    simpa using this
  refine ⟨hsucc, htmo, ?_, ?_, ?_⟩
  · intro env st hspawn h
    have hp := htmo env.http (st.backendUrl ++ "/health") 30 h
    simp only [startBackend, hspawn, hp]
  · intro env st hspawn h
    have hp := htmo env.http st.frontendUrl 60 h
    simp only [startFrontend, hspawn, hp]
  · intro env st k hspawn hk hpre h200
    have hp := hsucc env.http (st.backendUrl ++ "/health") 30 k hk hpre h200
    simp only [startBackend, hspawn, hp]

/-- Witness for C6: with every request refused the backend stage stops with
the timeout failure after its 30-iteration cap, and with an immediately
live target it succeeds at once. -/
theorem probe_caps_witness :
    ((∀ j, j < 30 → notReady (envRefused.http j "GET" (initState.backendUrl ++ "/health"))) ∧
      envRefused.spawnBackend = Except.ok () ∧
      startBackend envRefused initState =
        some ((false, "Backend failed to start within timeout"),
          { initState with backendLaunched := true })) ∧
    ((0 : Nat) < 30 ∧ baseEnv.http 0 "GET" (initState.backendUrl ++ "/health") = HttpRes.status 200 ∧
      startBackend baseEnv initState =
        some ((true, "Backend started successfully"), { initState with backendLaunched := true })) := by
  have hnr : ∀ j, j < 30 → notReady (envRefused.http j "GET" (initState.backendUrl ++ "/health")) := by
    intro j _
    exact ⟨(fun h => by cases h), (fun h => by cases h)⟩
  refine ⟨⟨hnr, rfl, ?_⟩, ⟨by decide, rfl, ?_⟩⟩
  · exact probe_immediate_success_and_iteration_caps.2.2.1 envRefused initState rfl hnr
  · exact probe_immediate_success_and_iteration_caps.2.2.2.2 baseEnv initState 0 rfl (by decide)
      (fun j hj => absurd hj (Nat.not_lt_zero j)) rfl

/-- Claim C7 counterexample: against a target that always answers 404 the
backend probe loop performs its 30 GETs back to back with not a single
`time.sleep(1)` between them (the sleep sits only in the network-error
branch), and a GET against a hanging target blocks the whole stage forever
because `requests.get` is called without any per-request timeout. -/
theorem probe_interval_counterexample :
    probeLoop http404 "http://localhost:5000/health" 30 0 =
      (some (false, 30), (List.range 30).map ProbeEvent.get) ∧
    (probeLoop httpHangs "http://localhost:5000/health" 30 0).1 = none ∧
    startBackend { baseEnv with http := httpHangs } initState = none := by
  refine ⟨by decide, by decide, by decide⟩

/-- Claim C7 amended: inside a start stage's health-probe loop a one-second
sleep happens exactly after each GET attempt that failed with a network
error — after a response with a non-200 status the next GET follows with no
sleep — and a GET carries no per-request timeout, so an attempt against a
hanging target blocks the probe loop indefinitely. -/
theorem probe_sleep_only_after_net_error :
    (∀ (http : Nat → String → String → HttpRes) (u : String) (n i : Nat),
        sleepCount (probeLoop http u n i).2 =
          netErrGetCount http u (probeLoop http u n i).2) ∧
    (∀ (http : Nat → String → String → HttpRes) (u : String) (n i : Nat),
        http i "GET" u = HttpRes.hang →
        probeLoop http u (n + 1) i = (none, [ProbeEvent.get i])) := by
  constructor
  · intro http u n
    induction n with
    | zero => intro i; simp [probeLoop, sleepCount, netErrGetCount]
    | succ n ih =>
      intro i
      cases hx : http i "GET" u with
      | status c =>
        by_cases hc : c = 200
        · subst hc
          simp [probeLoop, hx, sleepCount, netErrGetCount]
        · simp only [probeLoop, hx, if_neg hc, probeCons]
          simp only [sleepCount, netErrGetCount, hx]
          exact ih (i + 1)
      | netError m =>
        simp only [probeLoop, hx, probeConsSleep]
        simp only [sleepCount, netErrGetCount, hx]
        rw [ih (i + 1)]
      | hang =>
        simp [probeLoop, hx, sleepCount, netErrGetCount]
  · intro http u n i h
    simp [probeLoop, h]

theorem freshErr_length (n : Nat) : (freshErr n).length = n := by
  show (List.replicate n 'x').length = n
  exact List.length_replicate n 'x'

theorem retry_fresh_fixable_aux :
    ∀ fuel k (seen : List String), (∀ x ∈ seen, x.length ≤ k) →
      (retryWithFixes 5 "backend" fixAlways opFreshFail fuel 1 (freshErr (k + 1)) seen k).1 =
        RetryRes.fuelOut := by
  intro fuel
  induction fuel with
  | zero => intro k seen _; rfl
  | succ fuel ih =>
    intro k seen h
    have hmem : freshErr (k + 1) ∉ seen := by
      intro hx
      have hlen := h _ hx
      rw [freshErr_length] at hlen
      omega
    simp only [retryWithFixes]
    rw [if_neg (by omega : ¬ (1 : Nat) > 5), if_neg hmem]
    simp only [fixAlways, opFreshFail, evCons]
    exact ih (k + 1) (freshErr (k + 1) :: seen) (by
      intro x hx
      cases hx with
      | head => rw [freshErr_length]
      | tail _ hx2 => exact Nat.le_succ_of_le (h _ hx2))

/-- Claim C1 (code bug): the retry coordinator does not always terminate
within `max_attempts` iterations.  Against an operation that fails on every
call with a never-seen-before raw error string which the remediator reports
as fixed, the loop of `_retry_with_fixes` is still running after any number
of iterations with `max_attempts = 5` — the `attempt` counter is only
incremented in the duplicate branch and the fix-not-applied branch, never on
the applied-fix-then-retry-failed path.  The second conjunct shows the real
backend remediator does report every address-in-use error as fixed (the port
bump always succeeds), so ever-fresh fixable errors are realizable. -/
theorem retry_nonterminating_on_fresh_fixable_errors :
    (∀ fuel, (retryWithFixes 5 "backend" fixAlways opFreshFail fuel 1 (freshErr 1) [] 0).1 =
        RetryRes.fuelOut) ∧
    (∀ env : Env, analyzeAndFixError env "backend" "Address already in use :5000" initState =
        ((true, "Changed backend port to 5001"),
          { initState with backendPort := 5001, backendUrl := "http://localhost:5001",
                           fixAttempts := some { backend := ["Changed backend port to 5001"] } })) := by
  constructor
  · intro fuel
    exact retry_fresh_fixable_aux fuel 0 [] (by intro x hx; cases hx)
  · intro env
    rfl

theorem retry_duplicate_run {σ : Type} (maxA : Nat) (comp : String)
    (fix : String → σ → (Bool × String) × σ) (op : σ → Option ((Bool × String) × σ)) :
    ∀ fuel a err seen (s : σ), err ∈ seen → a ≤ maxA + 1 → maxA + 2 - a ≤ fuel →
      retryWithFixes maxA comp fix op fuel a err seen s =
        (RetryRes.done (false, retryFailMsg maxA comp err) s,
          List.replicate (maxA + 1 - a) (RetryEvent.duplicateSkip err)) := by
  intro fuel
  induction fuel with
  | zero => intro a err seen s _ ha hfuel; omega
  | succ fuel ih =>
    intro a err seen s hmem ha hfuel
    by_cases hgt : a > maxA
    · have haeq : a = maxA + 1 := by omega
      subst haeq
      simp only [retryWithFixes, if_pos hgt]
      rw [show maxA + 1 - (maxA + 1) = 0 from by omega]
      simp
    · simp only [retryWithFixes, if_neg hgt, if_pos hmem, evCons]
      rw [ih (a + 1) err seen s hmem (by omega) (by omega)]
      rw [show maxA + 1 - a = (maxA + 1 - (a + 1)) + 1 from by omega]
      simp [List.replicate_succ]

/-- Claim C2: when the wrapped operation has failed again with a raw error
string identical to one already in the seen-error set, the coordinator takes
the duplicate branch on that occurrence: the attempt counter is incremented
each remaining iteration, the classifier/remediator is never invoked again
for that string (the remaining trace holds duplicate-skip diagnostics only,
`maxA + 1 - a` of them), the operation is never re-invoked, and the session
is terminal — it ends in the failure return carrying that error string. -/
theorem retry_duplicate_error_terminal {σ : Type} (maxA : Nat) (comp : String)
    (fix : String → σ → (Bool × String) × σ) (op : σ → Option ((Bool × String) × σ))
    (fuel a : Nat) (err : String) (seen : List String) (s : σ)
    (hmem : err ∈ seen) (ha : a ≤ maxA) (hfuel : maxA + 2 - a ≤ fuel) :
    retryWithFixes maxA comp fix op fuel a err seen s =
      (RetryRes.done (false, retryFailMsg maxA comp err) s,
        List.replicate (maxA + 1 - a) (RetryEvent.duplicateSkip err)) :=
  retry_duplicate_run maxA comp fix op fuel a err seen s hmem (by omega) hfuel

/-- Witness for C2 at a concrete session: error "dup" was already seen, the
session is at attempt 2 of 5, and the run ends in the failure return after
four duplicate-skip diagnostics and no further classifier or operation
calls. -/
theorem retry_duplicate_witness :
    ("dup" ∈ ["dup"]) ∧ (2 ≤ 5) ∧ (5 + 2 - 2 ≤ 10) ∧
    retryWithFixes 5 "backend" fixAlways (fun k => some ((false, "e"), k)) 10 2 "dup" ["dup"]
        (0 : Nat) =
      (RetryRes.done (false, retryFailMsg 5 "backend" "dup") 0,
        List.replicate 4 (RetryEvent.duplicateSkip "dup")) := by
  refine ⟨by decide, by decide, by decide, ?_⟩
  exact retry_duplicate_error_terminal 5 "backend" fixAlways (fun k => some ((false, "e"), k))
    10 2 "dup" ["dup"] 0 (by decide) (by decide) (by decide)

theorem analyze_spec_eq (env : Env) (c error : String) (st : DemoState) :
    analyzeAndFixError env c error st = specAction env c (specClassify c error) st := by
  by_cases hb : c = "backend"
  · subst hb
    have hL : analyzeAndFixError env "backend" error st = fixBackendError env error st := rfl
    rw [hL]
    cases h1 : hasSub error "ModuleNotFoundError" with
    | true =>
      cases hq : (splitOnQuote error.data)[1]? with
      | none => simp [fixBackendError, specAction, specClassify, h1, hq]
      | some m => simp [fixBackendError, specAction, specClassify, h1, hq]
    | false =>
      cases h2 : hasSub error "Address already in use" with
      | true => simp [fixBackendError, specAction, specClassify, h1, h2]
      | false =>
        cases h3 : hasSub error
            ("No module named " ++ String.mk [quoteChar] ++ "flask" ++ String.mk [quoteChar]) with
        | true => simp [fixBackendError, specAction, specClassify, h1, h2, h3]
        | false =>
          cases h4 : hasSub error "SQLAlchemy" with
          | true => simp [fixBackendError, specAction, specClassify, h1, h2, h3, h4]
          | false => simp [fixBackendError, specAction, specClassify, unableMsg, h1, h2, h3, h4]
  · by_cases hf : c = "frontend"
    · subst hf
      have hL : analyzeAndFixError env "frontend" error st = fixFrontendError env error st := rfl
      rw [hL]
      cases hE : hasSub error "ENOENT" with
      | true =>
        cases hP : hasSub error "package.json" with
        | true => simp [fixFrontendError, specAction, specClassify, hE, hP]
        | false =>
          cases hR : hasSub error "react-scripts" with
          | true => simp [fixFrontendError, specAction, specClassify, hE, hP, hR]
          | false =>
            cases hA : hasSub error "EADDRINUSE" with
            | true => simp [fixFrontendError, specAction, specClassify, hE, hP, hR, hA]
            | false =>
              simp [fixFrontendError, specAction, specClassify, unableMsg, hE, hP, hR, hA]
      | false =>
        cases hR : hasSub error "react-scripts" with
        | true => simp [fixFrontendError, specAction, specClassify, hE, hR]
        | false =>
          cases hA : hasSub error "EADDRINUSE" with
          | true => simp [fixFrontendError, specAction, specClassify, hE, hR, hA]
          | false => simp [fixFrontendError, specAction, specClassify, unableMsg, hE, hR, hA]
    · by_cases hd : c = "dependencies"
      · subst hd
        have hL : analyzeAndFixError env "dependencies" error st =
            fixDependencyError env error st := rfl
        rw [hL]
        cases hN : hasSub (strLower error) "npm" with
        | true => simp [fixDependencyError, specAction, specClassify, hN]
        | false =>
          cases hPy : hasSub (strLower error) "python" with
          | true => simp [fixDependencyError, specAction, specClassify, hN, hPy]
          | false =>
            cases hPi : hasSub (strLower error) "pip" with
            | true => simp [fixDependencyError, specAction, specClassify, hN, hPy, hPi]
            | false =>
              simp [fixDependencyError, specAction, specClassify, unableMsg, hN, hPy, hPi]
      · simp [analyzeAndFixError, specAction, specClassify, hb, hf, hd]

/-- Claim C8: classifying and attempting a fix is total and deterministic.
For every environment, component name, raw error string and state the call
returns a value (it is a function, with every exception of the fix bodies
caught), and that value equals the spec-side remediation table applied to
the spec-side ordered first-match classification; an input matching no
signature yields the not-applicable "Unable to automatically fix ..."
outcome with no state change beyond ledger initialization, and an unknown
component yields the "Unknown component" outcome with no state change. -/
theorem analyze_total_first_match :
    (∀ (env : Env) (c error : String) (st : DemoState),
        analyzeAndFixError env c error st = specAction env c (specClassify c error) st) ∧
    (∀ (env : Env) (c error : String) (st : DemoState),
        specClassify c error = ErrorCategory.unclassified →
        analyzeAndFixError env c error st = ((false, unableMsg c), ensureLedger st)) ∧
    (∀ (env : Env) (c error : String) (st : DemoState),
        specClassify c error = ErrorCategory.unknownComponent →
        analyzeAndFixError env c error st = ((false, "Unknown component: " ++ c), st)) := by
  refine ⟨analyze_spec_eq, ?_, ?_⟩
  · intro env c error st h
    rw [analyze_spec_eq, h]
    rfl
  · intro env c error st h
    rw [analyze_spec_eq, h]
    rfl

/-- Witness for C8: the backend-stage timeout message matches no backend
signature, and the classify-and-fix call on it returns the not-applicable
outcome, changing nothing but the lazily initialized ledger. -/
theorem analyze_total_witness :
    specClassify "backend" "Backend failed to start within timeout" =
      ErrorCategory.unclassified ∧
    analyzeAndFixError baseEnv "backend" "Backend failed to start within timeout" initState =
      ((false, unableMsg "backend"), ensureLedger initState) :=
  ⟨rfl, analyze_total_first_match.2.1 baseEnv "backend"
    "Backend failed to start within timeout" initState rfl⟩

/-- Claim C9: a remediation action that itself fails is caught locally.
When every subprocess call of the world fails, classify-and-fix on any error
whose category carries a subprocess action returns the unfixed outcome
`(false, "... fix failed: <error>")` with no state change beyond ledger
initialization — no exception escapes — and a full retry session over such
an error simply burns its budget and ends in the normal exhaustion failure,
never re-raising and never reaching the wrapped operation. -/
theorem fix_action_failure_contained (env : Env) (m : String)
    (hEnv : ∀ cmd, env.runCmd cmd = Except.error m) (c error : String) (st : DemoState)
    (hf : fallibleCategory (specClassify c error) = true) :
    analyzeAndFixError env c error st = ((false, fixFailHead c ++ m), ensureLedger st) ∧
    (∀ (op : DemoState → Option ((Bool × String) × DemoState)) (fuel : Nat), 6 ≤ fuel →
      (retryWithFixes 5 c (analyzeAndFixError env c) op fuel 1 error [] st).1 =
        RetryRes.done (false, retryFailMsg 5 c error) (ensureLedger st)) := by
  have hfix : analyzeAndFixError env c error st = ((false, fixFailHead c ++ m), ensureLedger st) := by
    rw [analyze_spec_eq]
    by_cases hb : c = "backend"
    · subst hb
      cases h1 : hasSub error "ModuleNotFoundError" with
      | true =>
        cases hq : (splitOnQuote error.data)[1]? with
        | none => simp [specClassify, fallibleCategory, h1, hq] at hf
        | some mm => simp [specAction, specClassify, fixFailHead, h1, hq, hEnv]
      | false =>
        cases h2 : hasSub error "Address already in use" with
        | true => simp [specClassify, fallibleCategory, h1, h2] at hf
        | false =>
          cases h3 : hasSub error
              ("No module named " ++ String.mk [quoteChar] ++ "flask" ++ String.mk [quoteChar]) with
          | true => simp [specAction, specClassify, fixFailHead, h1, h2, h3, hEnv]
          | false =>
            cases h4 : hasSub error "SQLAlchemy" with
            | true => simp [specAction, specClassify, fixFailHead, h1, h2, h3, h4, hEnv]
            | false => simp [specClassify, fallibleCategory, h1, h2, h3, h4] at hf
    · by_cases hfr : c = "frontend"
      · subst hfr
        cases hE : hasSub error "ENOENT" with
        | true =>
          cases hP : hasSub error "package.json" with
          | true => simp [specClassify, fallibleCategory, hE, hP] at hf
          | false =>
            cases hR : hasSub error "react-scripts" with
            | true => simp [specAction, specClassify, fixFailHead, hE, hP, hR, hEnv]
            | false =>
              cases hA : hasSub error "EADDRINUSE" with
              | true => simp [specClassify, fallibleCategory, hE, hP, hR, hA] at hf
              | false => simp [specClassify, fallibleCategory, hE, hP, hR, hA] at hf
        | false =>
          cases hR : hasSub error "react-scripts" with
          | true => simp [specAction, specClassify, fixFailHead, hE, hR, hEnv]
          | false =>
            cases hA : hasSub error "EADDRINUSE" with
            | true => simp [specClassify, fallibleCategory, hE, hR, hA] at hf
            | false => simp [specClassify, fallibleCategory, hE, hR, hA] at hf
      · by_cases hd : c = "dependencies"
        · subst hd
          cases hN : hasSub (strLower error) "npm" with
          | true =>
            cases hw : env.isWin with
            | true => simp [specAction, specClassify, fixFailHead, hN, hw, hEnv]
            | false => simp [specAction, specClassify, fixFailHead, hN, hw, hEnv]
          | false =>
            cases hPy : hasSub (strLower error) "python" with
            | true => simp [specAction, specClassify, fixFailHead, hN, hPy, hEnv]
            | false =>
              cases hPi : hasSub (strLower error) "pip" with
              | true => simp [specAction, specClassify, fixFailHead, hN, hPy, hPi, hEnv]
              | false => simp [specClassify, fallibleCategory, hN, hPy, hPi] at hf
        · simp [specClassify, fallibleCategory, hb, hfr, hd] at hf
  refine ⟨hfix, ?_⟩
  intro op fuel hfuel
  cases fuel with
  | zero => omega
  | succ fuel =>
    simp only [retryWithFixes]
    rw [if_neg (by omega : ¬ (1 : Nat) > 5), if_neg (List.not_mem_nil error)]
    simp only [hfix, evCons]
    rw [retry_duplicate_run 5 c (analyzeAndFixError env c) op fuel 2 error [error]
      (ensureLedger st) (List.mem_singleton.mpr rfl) (by omega) (by omega)]
    simp

/-- Witness for C9: with every subprocess call failing, the missing-flask
error is classified fallible, its fix attempt reports the contained failure,
and a whole retry session on it ends in the plain exhaustion failure. -/
theorem fix_action_failure_witness :
    (∀ cmd, envCmdsFail.runCmd cmd = Except.error "boom") ∧
    fallibleCategory (specClassify "backend" flaskErrStr) = true ∧
    analyzeAndFixError envCmdsFail "backend" flaskErrStr initState =
      ((false, "Backend fix failed: boom"), ensureLedger initState) ∧
    (retryWithFixes 5 "backend" (analyzeAndFixError envCmdsFail "backend")
        (fun s => some ((false, "x"), s)) 6 1 flaskErrStr [] initState).1 =
      RetryRes.done (false, retryFailMsg 5 "backend" flaskErrStr) (ensureLedger initState) := by
  have H := fix_action_failure_contained envCmdsFail "boom" (fun _ => rfl) "backend" flaskErrStr
    initState (by rfl)
  exact ⟨fun _ => rfl, by rfl, H.1, H.2 (fun s => some ((false, "x"), s)) 6 (by omega)⟩

/-- Claim C4 counterexample: the frontend remediator does not treat the raw
error string "Address already in use" as a port conflict — that signature
lives in the backend table, while the frontend table matches only the
"EADDRINUSE" signal.  On this input the frontend fix is reported not
applicable and the frontend port and URL keep their values
3000 / http://localhost:3000 — the port is not incremented to 3001. -/
theorem frontend_address_in_use_counterexample :
    analyzeAndFixError baseEnv "frontend" "Address already in use" initState =
      ((false, "Unable to automatically fix this frontend error"), ensureLedger initState) ∧
    (ensureLedger initState).frontendPort = 3000 ∧
    (ensureLedger initState).frontendUrl = "http://localhost:3000" :=
  ⟨rfl, rfl, rfl⟩

/-- Claim C4 amended: when the frontend start stage fails with a raw error
carrying the "EADDRINUSE" signal (and no earlier frontend signature) while
the frontend port is 3000, the remediator treats it as a port conflict,
increments the frontend port to 3001 and updates the advertised URL to
http://localhost:3001; the retried start probes that URL and, when it
answers 200, the stage ends in success and the report produced from the
final state advertises the frontend at port 3001. -/
theorem frontend_eaddrinuse_port_increment (env : Env) (error : String)
    (hA : hasSub error "EADDRINUSE" = true)
    (hE : (hasSub error "ENOENT" && hasSub error "package.json") = false)
    (hR : hasSub error "react-scripts" = false)
    (hspawn : env.spawnFrontend = Except.ok ())
    (h200 : env.http 0 "GET" "http://localhost:3001" = HttpRes.status 200)
    (fuel : Nat) (hfuel : 1 ≤ fuel) :
    (retryWithFixes 5 "frontend" (analyzeAndFixError env "frontend") (startFrontend env)
        fuel 1 error [] initState).1 =
      RetryRes.done (true, "Frontend started successfully") stFrontStarted ∧
    stFrontStarted.frontendPort = 3001 ∧
    stFrontStarted.frontendUrl = "http://localhost:3001" ∧
    (∀ api : List EndpointResult,
      "- Frontend: http://localhost:3001" ∈ reportLines stFrontStarted api) := by
  have hfix : analyzeAndFixError env "frontend" error initState =
      ((true, "Changed frontend port to 3001"), stAfterFrontFix) := by
    show fixFrontendError env error initState = _
    simp [fixFrontendError, hE, hR, hA]
    all_goals decide
  have hprobe : (probeLoop env.http "http://localhost:3001" 60 0).1 = some (true, 1) := by
    have hs := probe_success env.http "http://localhost:3001" 60 0 0 (by omega)
      (fun j hj => absurd hj (Nat.not_lt_zero j)) (by simpa using h200)
    simpa using hs
  have hop : startFrontend env stAfterFrontFix =
      some ((true, "Frontend started successfully"), stFrontStarted) := by
    simp [startFrontend, hspawn, stAfterFrontFix, stFrontStarted, hprobe]
  refine ⟨?_, rfl, rfl, ?_⟩
  · cases fuel with
    | zero => omega
    | succ fuel =>
      simp only [retryWithFixes]
      rw [if_neg (by omega : ¬ (1 : Nat) > 5), if_neg (List.not_mem_nil error)]
      simp [hfix, evCons, hop]
  · intro api
    simp [reportLines, stFrontStarted, stAfterFrontFix]

/-- Witness for the amended C4 at a concrete world: raw error "EADDRINUSE",
a world in which only http://localhost:3001 answers 200, fuel 1. -/
theorem frontend_eaddrinuse_witness :
    hasSub "EADDRINUSE" "EADDRINUSE" = true ∧
    (hasSub "EADDRINUSE" "ENOENT" && hasSub "EADDRINUSE" "package.json") = false ∧
    hasSub "EADDRINUSE" "react-scripts" = false ∧
    env3001.spawnFrontend = Except.ok () ∧
    env3001.http 0 "GET" "http://localhost:3001" = HttpRes.status 200 ∧
    (retryWithFixes 5 "frontend" (analyzeAndFixError env3001 "frontend") (startFrontend env3001)
        1 1 "EADDRINUSE" [] initState).1 =
      RetryRes.done (true, "Frontend started successfully") stFrontStarted := by
  have H := frontend_eaddrinuse_port_increment env3001 "EADDRINUSE" (by decide) (by decide)
    (by decide) rfl (by rfl) 1 (by omega)
  exact ⟨by decide, by decide, by decide, rfl, by rfl, H.1⟩

theorem retry_first_unfixable {σ : Type} (comp : String)
    (fix : String → σ → (Bool × String) × σ) (op : σ → Option ((Bool × String) × σ))
    (err msg : String) (s s1 : σ) (hfix : fix err s = ((false, msg), s1))
    (fuel : Nat) (hfuel : 6 ≤ fuel) :
    (retryWithFixes 5 comp fix op fuel 1 err [] s).1 =
      RetryRes.done (false, retryFailMsg 5 comp err) s1 := by
  cases fuel with
  | zero => omega
  | succ fuel =>
    simp only [retryWithFixes]
    rw [if_neg (by omega : ¬ (1 : Nat) > 5), if_neg (List.not_mem_nil err)]
    simp only [hfix, evCons]
    rw [retry_duplicate_run 5 comp fix op fuel 2 err [err] s1
      (List.mem_singleton.mpr rfl) (by omega) (by omega)]
    simp

/-- Claim C5: when the backend start stage (stage 2) or the frontend start
stage (stage 3) ends in permanent failure after its retry budget,
`demonstrate` attempts no later stage, still executes cleanup (terminating
the processes it launched, their psutil lookups succeeding), and returns the
failure triple whose message names the failed component and the last error
— the markdown report slot of the triple is `none`. -/
theorem demonstrate_stage_failure_short_circuits :
    (∀ (env : Env) (fuel : Nat), env.backendReqTxt = false → env.frontendPkgJson = false →
      env.spawnBackend = Except.ok () →
      (∀ j, j < 30 → notReady (env.http j "GET" "http://localhost:5000/health")) →
      env.psBackendLookupOk = true → 6 ≤ fuel →
      demonstrate env fuel = DemoOut.finished
        ⟨(false, retryFailMsg 5 "backend" "Backend failed to start within timeout", none),
         ["[1/4] Installing dependencies...", "[2/4] Starting backend server..."],
         stBackendOnly, ⟨true, false, false⟩⟩) ∧
    (∀ (env : Env) (fuel : Nat), env.backendReqTxt = false → env.frontendPkgJson = false →
      env.spawnBackend = Except.ok () →
      (∀ j, env.http j "GET" "http://localhost:5000/health" = HttpRes.status 200) →
      env.spawnFrontend = Except.ok () →
      (∀ j, j < 60 → notReady (env.http j "GET" "http://localhost:3000")) →
      env.psBackendLookupOk = true → env.psFrontendLookupOk = true → 6 ≤ fuel →
      demonstrate env fuel = DemoOut.finished
        ⟨(false, retryFailMsg 5 "frontend" "Frontend failed to start within timeout", none),
         ["[1/4] Installing dependencies...", "[2/4] Starting backend server...",
          "[3/4] Starting frontend server..."],
         stBothOnly, ⟨true, true, false⟩⟩) := by
  constructor
  · intro env fuel hb hf hsp hhttp hps hfuel
    have hp : (probeLoop env.http (initState.backendUrl ++ "/health") 30 0).1 =
        some (false, 30) := by
      have ht := probe_timeout env.http (initState.backendUrl ++ "/health") 30 0
        (fun j hj => by simpa using hhttp j hj)
      simpa using ht
    have hop : startBackend env initState =
        some ((false, "Backend failed to start within timeout"),
          { initState with backendLaunched := true }) := by
      simp [startBackend, hsp, hp]
    have hfix : analyzeAndFixError env "backend" "Backend failed to start within timeout"
        { initState with backendLaunched := true } =
        ((false, unableMsg "backend"), stBackendOnly) := rfl
    have hretry := retry_first_unfixable "backend" (analyzeAndFixError env "backend")
      (startBackend env) "Backend failed to start within timeout" (unableMsg "backend")
      { initState with backendLaunched := true } stBackendOnly hfix fuel hfuel
    have hclean : cleanupProcesses env stBackendOnly = ⟨true, false, false⟩ := by
      simp [cleanupProcesses, stBackendOnly, initState, hps]
    simp [demonstrate, runStage, installDependencies, hb, hf, hop, hretry, hclean]
  · intro env fuel hb hf hsp hhB hspF hhF hps hpsF hfuel
    have hpB : (probeLoop env.http (initState.backendUrl ++ "/health") 30 0).1 =
        some (true, 1) := by
      have hs := probe_success env.http (initState.backendUrl ++ "/health") 30 0 0 (by omega)
        (fun j hj => absurd hj (Nat.not_lt_zero j)) (by simpa using hhB 0)
      simpa using hs
    have hopB : startBackend env initState =
        some ((true, "Backend started successfully"), { initState with backendLaunched := true }) := by
      simp [startBackend, hsp, hpB]
    have hpF : (probeLoop env.http initState.frontendUrl 60 0).1 = some (false, 60) := by
      have ht := probe_timeout env.http initState.frontendUrl 60 0
        (fun j hj => by simpa using hhF j hj)
      simpa using ht
    have hopF : startFrontend env { initState with backendLaunched := true } =
        some ((false, "Frontend failed to start within timeout"),
          { initState with backendLaunched := true, frontendLaunched := true }) := by
      simp [startFrontend, hspF, hpF]
    have hfix : analyzeAndFixError env "frontend" "Frontend failed to start within timeout"
        { initState with backendLaunched := true, frontendLaunched := true } =
        ((false, unableMsg "frontend"), stBothOnly) := rfl
    have hretry := retry_first_unfixable "frontend" (analyzeAndFixError env "frontend")
      (startFrontend env) "Frontend failed to start within timeout" (unableMsg "frontend")
      { initState with backendLaunched := true, frontendLaunched := true } stBothOnly hfix fuel hfuel
    have hclean : cleanupProcesses env stBothOnly = ⟨true, true, false⟩ := by
      simp [cleanupProcesses, stBothOnly, initState, hps, hpsF]
    simp [demonstrate, runStage, installDependencies, hb, hf, hopB, hopF, hretry, hclean]

/-- Witness for C5: a concrete world where every request is refused makes
stage 2 fail permanently; a world where only the backend liveness endpoint
answers makes stage 3 fail permanently.  In both, the later stages are
absent from the attempted-stage list and cleanup has run. -/
theorem demonstrate_stage_failure_witness :
    (envRefused.backendReqTxt = false ∧ envRefused.spawnBackend = Except.ok () ∧
      demonstrate envRefused 6 = DemoOut.finished
        ⟨(false, retryFailMsg 5 "backend" "Backend failed to start within timeout", none),
         ["[1/4] Installing dependencies...", "[2/4] Starting backend server..."],
         stBackendOnly, ⟨true, false, false⟩⟩) ∧
    (envFrontRefused.spawnFrontend = Except.ok () ∧
      demonstrate envFrontRefused 6 = DemoOut.finished
        ⟨(false, retryFailMsg 5 "frontend" "Frontend failed to start within timeout", none),
         ["[1/4] Installing dependencies...", "[2/4] Starting backend server...",
          "[3/4] Starting frontend server..."],
         stBothOnly, ⟨true, true, false⟩⟩) := by
  constructor
  · refine ⟨rfl, rfl, ?_⟩
    exact demonstrate_stage_failure_short_circuits.1 envRefused 6 rfl rfl rfl
      (fun j _ => ⟨(fun h => by cases h), (fun h => by cases h)⟩) rfl (by omega)
  · refine ⟨rfl, ?_⟩
    exact demonstrate_stage_failure_short_circuits.2 envFrontRefused 6 rfl rfl rfl
      (fun j => rfl) rfl
      (fun j _ => ⟨(fun h => by cases h), (fun h => by cases h)⟩) rfl rfl (by omega)

/-- Claim C3 (code bug): cleanup does run on every normal exit path of
`demonstrate` (it sits in a `finally` clause), but it does not always
terminate every launched process: in a run where every stage succeeded and
both servers were launched, if the backend process has already exited by
cleanup time (`psutil.Process` raises `NoSuchProcess`), the single shared
`try` block of `_cleanup` aborts at the backend lookup and the frontend
process tree never receives a terminate signal — a launched process remains
non-terminated after `demonstrate` returns. -/
theorem cleanup_skips_frontend_on_backend_lookup_failure :
    (demoRunOf (demonstrate envBackendGone 1)).map
        (fun r => (r.result.1, r.finalState.backendLaunched, r.finalState.frontendLaunched,
          r.cleanup)) =
      some (true, true, true, ⟨false, false, true⟩) := by
  decide

/-- Claim C10: the smoke-test stage attempts each of its four fixed
endpoints exactly once, in order, each request independent of the other
results (the result list is the bind-chain of the four single checks), and
records a response as Success exactly when its status code is strictly
below 500 — 4xx codes included, with the code kept in the row — and as
Failed exactly when the status is 500 or above or the request raised. -/
theorem verify_endpoints_once_and_status_rule :
    (∀ (env : Env) (st : DemoState),
      verifyApiEndpoints env st =
        (checkEndpoint env st 0 ("/api/health", "GET")).bind (fun r0 =>
          (checkEndpoint env st 1 ("/api/auth/register", "POST")).bind (fun r1 =>
            (checkEndpoint env st 2 ("/api/auth/login", "POST")).bind (fun r2 =>
              (checkEndpoint env st 3 ("/api/users/profile", "GET")).map
                (fun r3 => [r0, r1, r2, r3]))))) ∧
    (∀ (env : Env) (st : DemoState) (i : Nat) (p : String × String) (c : Nat),
      env.http i p.2 (st.backendUrl ++ p.1) = HttpRes.status c →
      checkEndpoint env st i p =
        some ⟨p.1, p.2, if c < 500 then "Success" else "Failed", some (toString c), none⟩) ∧
    (∀ (env : Env) (st : DemoState) (i : Nat) (p : String × String) (e : String),
      env.http i p.2 (st.backendUrl ++ p.1) = HttpRes.netError e →
      checkEndpoint env st i p = some ⟨p.1, p.2, "Failed", none, some e⟩) := by
  refine ⟨?_, ?_, ?_⟩
  · intro env st
    cases h0 : checkEndpoint env st 0 ("/api/health", "GET") with
    | none => simp [verifyApiEndpoints, verifyGo, apiEndpoints, h0]
    | some r0 =>
      cases h1 : checkEndpoint env st 1 ("/api/auth/register", "POST") with
      | none => simp [verifyApiEndpoints, verifyGo, apiEndpoints, h0, h1]
      | some r1 =>
        cases h2 : checkEndpoint env st 2 ("/api/auth/login", "POST") with
        | none => simp [verifyApiEndpoints, verifyGo, apiEndpoints, h0, h1, h2]
        | some r2 =>
          cases h3 : checkEndpoint env st 3 ("/api/users/profile", "GET") with
          | none => simp [verifyApiEndpoints, verifyGo, apiEndpoints, h0, h1, h2, h3]
          | some r3 => simp [verifyApiEndpoints, verifyGo, apiEndpoints, h0, h1, h2, h3]
  · intro env st i p c h
    simp [checkEndpoint, h]
  · intro env st i p e h
    simp [checkEndpoint, h]

/-- Witness for C10: in the sample world the health endpoint records
Success 200, the register endpoint records Success with its 400 client
error, the login request raises and records Failed, and the profile
endpoint records Failed with its 503. -/
theorem verify_endpoints_witness :
    envSmoke.http 1 "POST" (initState.backendUrl ++ "/api/auth/register") = HttpRes.status 400 ∧
    checkEndpoint envSmoke initState 1 ("/api/auth/register", "POST") =
      some ⟨"/api/auth/register", "POST", "Success", some "400", none⟩ ∧
    verifyApiEndpoints envSmoke initState =
      some [⟨"/api/health", "GET", "Success", some "200", none⟩,
            ⟨"/api/auth/register", "POST", "Success", some "400", none⟩,
            ⟨"/api/auth/login", "POST", "Failed", none, some "boom"⟩,
            ⟨"/api/users/profile", "GET", "Failed", some "503", none⟩] := by
  refine ⟨rfl, ?_, by decide⟩
  exact verify_endpoints_once_and_status_rule.2.1 envSmoke initState 1
    ("/api/auth/register", "POST") 400 rfl

/-- Witness for the amended C7: the sleep-count equation evaluated on the
always-404 world, and the blocked single attempt on the hanging world. -/
theorem probe_sleep_witness :
    httpHangs 0 "GET" "http://localhost:5000/health" = HttpRes.hang ∧
    probeLoop httpHangs "http://localhost:5000/health" 5 0 = (none, [ProbeEvent.get 0]) ∧
    sleepCount (probeLoop http404 "http://localhost:5000/health" 30 0).2 =
      netErrGetCount http404 "http://localhost:5000/health"
        (probeLoop http404 "http://localhost:5000/health" 30 0).2 := by
  refine ⟨rfl, ?_, ?_⟩
  · exact probe_sleep_only_after_net_error.2 httpHangs "http://localhost:5000/health" 4 0 rfl
  · exact probe_sleep_only_after_net_error.1 http404 "http://localhost:5000/health" 30 0

end SEA
